import Mathlib

/-!
Verification development for the wirewave crate (src/lib.rs), a blocking
client of the Wave music API.  The Rust code is shallowly embedded: the
HTTP transport is an explicit function from a URL to a response or a
transport failure, response bodies are carried as parsed JSON values
(with a marker for a body that is not valid JSON), and the operations
return both their result and the list of URLs they requested, so that
"issues a network call" is a provable statement.
-/

namespace Wirewave

/-- JSON numeric values as the serde_json data model distinguishes them:
an integer literal carries an exact integer, while a literal written with a
fraction or an exponent is a floating-point value and never deserializes
into an unsigned integer type. -/
inductive JsonNum where
  | int (i : Int)
  | float (q : Rat)
deriving DecidableEq, Repr

/-- JSON values: the parsed form of a response body. -/
inductive Json where
  | null
  | bool (b : Bool)
  | num (v : JsonNum)
  | str (s : String)
  | arr (xs : List Json)
  | obj (fields : List (String × Json))
deriving Repr

/-- Whether a JSON value is an object that contains the given key. -/
def Json.hasKey : Json → String → Bool
  | .obj fields, k => fields.any (fun kv => kv.1 = k)
  | _, _ => false

/-- Embedding of the Rust struct WaveMusic: one music item.  Every field is
an Option; the Rust field duration has type Option of u32 and is kept here
as an Option of Nat, the 0 .. 2^32 - 1 range being enforced by
deserialization (see deOptU32). -/
structure WaveMusic where
  title : Option String
  uploader_name : Option String
  uploader_url : Option String
  duration : Option Nat
  id : Option String
deriving DecidableEq, Repr

/-- Embedding of the private Rust struct ApiResponse: the search response
wrapper holding the list of items. -/
structure ApiResponse where
  items : List WaveMusic
deriving DecidableEq, Repr

/-- Embedding of the Display implementation for WaveMusic: the title and the
uploader name, joined by the word from, an absent field rendered as the
empty string (unwrap_or_default on an Option of String). -/
def WaveMusic.display (m : WaveMusic) : String :=
  m.title.getD "" ++ " from " ++ m.uploader_name.getD ""

/-- Kinds of serde_json deserialization failures relevant to this crate.
The Rust error carries a message string; only its kind matters here. -/
inductive SerdeError where
  | notJson
  | missingField (name : String)
  | duplicateField (name : String)
  | invalidType (expected : String)
  | invalidValue (expected : String)
deriving DecidableEq, Repr

/-- Deserialization of an Option of String, serde semantics: null becomes
none, a JSON string becomes some, anything else is a type error. -/
def deOptString : Json → Except SerdeError (Option String)
  | .null => .ok none
  | .str s => .ok (some s)
  | _ => .error (.invalidType "a string")

/-- Deserialization of an Option of u32, serde_json semantics: null becomes
none, an integer in 0 .. 2^32 - 1 becomes some, an out-of-range integer is
a value error, a floating-point number or any other value is a type error. -/
def deOptU32 : Json → Except SerdeError (Option Nat)
  | .null => .ok none
  | .num (.int i) =>
    if 0 ≤ i ∧ i < 4294967296 then .ok (some i.toNat)
    else .error (.invalidValue "u32")
  | .num (.float _) => .error (.invalidType "u32")
  | _ => .error (.invalidType "u32")

/-- Accumulator while scanning the fields of a JSON object into a WaveMusic,
mirroring the visitor the serde derive generates: an outer none means the
field has not been seen yet, an outer some records the value it was seen
with (which itself may be none, from an explicit null). -/
structure WMAcc where
  title : Option (Option String)
  uploader_name : Option (Option String)
  uploader_url : Option (Option String)
  duration : Option (Option Nat)
  id : Option (Option String)
deriving DecidableEq, Repr

/-- Accumulator with no field seen yet. -/
def WMAcc.init : WMAcc := ⟨none, none, none, none, none⟩

/-- One step of the generated visitor: dispatch on the field name (with the
serde renames uploaderName and uploaderUrl), reject a duplicate known field,
deserialize the value of a known field, and ignore an unknown field. -/
def wmStep (acc : WMAcc) (k : String) (v : Json) : Except SerdeError WMAcc :=
  if k = "title" then
    match acc.title with
    | some _ => .error (.duplicateField "title")
    | none =>
      match deOptString v with
      | .error e => .error e
      | .ok s => .ok ⟨some s, acc.uploader_name, acc.uploader_url, acc.duration, acc.id⟩
  else if k = "uploaderName" then
    match acc.uploader_name with
    | some _ => .error (.duplicateField "uploaderName")
    | none =>
      match deOptString v with
      | .error e => .error e
      | .ok s => .ok ⟨acc.title, some s, acc.uploader_url, acc.duration, acc.id⟩
  else if k = "uploaderUrl" then
    match acc.uploader_url with
    | some _ => .error (.duplicateField "uploaderUrl")
    | none =>
      match deOptString v with
      | .error e => .error e
      | .ok s => .ok ⟨acc.title, acc.uploader_name, some s, acc.duration, acc.id⟩
  else if k = "duration" then
    match acc.duration with
    | some _ => .error (.duplicateField "duration")
    | none =>
      match deOptU32 v with
      | .error e => .error e
      | .ok d => .ok ⟨acc.title, acc.uploader_name, acc.uploader_url, some d, acc.id⟩
  else if k = "id" then
    match acc.id with
    | some _ => .error (.duplicateField "id")
    | none =>
      match deOptString v with
      | .error e => .error e
      | .ok s => .ok ⟨acc.title, acc.uploader_name, acc.uploader_url, acc.duration, some s⟩
  else .ok acc

/-- Scan the field list of a JSON object; at the end an unseen Option field
defaults to none, as the serde derive does for Option fields. -/
def wmFields : WMAcc → List (String × Json) → Except SerdeError WaveMusic
  | acc, [] =>
    .ok ⟨acc.title.getD none, acc.uploader_name.getD none, acc.uploader_url.getD none,
      acc.duration.getD none, acc.id.getD none⟩
  | acc, kv :: rest =>
    match wmStep acc kv.1 kv.2 with
    | .error e => .error e
    | .ok acc2 => wmFields acc2 rest

/-- Deserialization of one WaveMusic from a JSON value: it must be an
object, whose fields are scanned in order. -/
def WaveMusic.fromJson : Json → Except SerdeError WaveMusic
  | .obj fields => wmFields WMAcc.init fields
  | _ => .error (.invalidType "struct WaveMusic")

/-- Deserialization of the items vector, element by element in order,
stopping at the first failing element. -/
def deItems : List Json → Except SerdeError (List WaveMusic)
  | [] => .ok []
  | j :: rest =>
    match WaveMusic.fromJson j with
    | .error e => .error e
    | .ok m =>
      match deItems rest with
      | .error e => .error e
      | .ok ms => .ok (m :: ms)

/-- Scan the field list of the response object for the items key: a
duplicate is an error, the value must be an array of items, an unknown
field is ignored, and a missing items field at the end is an error
(the field is not an Option, so serde requires it). -/
def arFields : Option (List WaveMusic) → List (String × Json) → Except SerdeError ApiResponse
  | some xs, [] => .ok ⟨xs⟩
  | none, [] => .error (.missingField "items")
  | found, kv :: rest =>
    if kv.1 = "items" then
      match found with
      | some _ => .error (.duplicateField "items")
      | none =>
        match kv.2 with
        | .arr es => (deItems es).bind (fun ms => arFields (some ms) rest)
        | _ => .error (.invalidType "a sequence")
    else arFields found rest

/-- Deserialization of the ApiResponse wrapper from a JSON value. -/
def ApiResponse.fromJson : Json → Except SerdeError ApiResponse
  | .obj fields => arFields none fields
  | _ => .error (.invalidType "struct ApiResponse")

/-- Serialization of an optional string field, serde semantics: a none is
written as an explicit null, the field itself is always emitted. -/
def optStrJson : Option String → Json
  | none => .null
  | some s => .str s

/-- Serialization of the optional duration field: a none is written as an
explicit null, a present value as its integer. -/
def optU32Json : Option Nat → Json
  | none => .null
  | some d => .num (.int (d : Int))

/-- Serialization of a WaveMusic, fields in declaration order with the
serde renames; every field is emitted, an absent one as null. -/
def WaveMusic.toJson (m : WaveMusic) : Json :=
  .obj [("title", optStrJson m.title), ("uploaderName", optStrJson m.uploader_name),
    ("uploaderUrl", optStrJson m.uploader_url), ("duration", optU32Json m.duration),
    ("id", optStrJson m.id)]

/-- Serialization of the ApiResponse wrapper. -/
def ApiResponse.toJson (a : ApiResponse) : Json :=
  .obj [("items", .arr (a.items.map WaveMusic.toJson))]

/-- Decimal digit characters, for rendering a status code the way the Rust
Display of a status code does. -/
def digitChar : Nat → Char
  | 0 => '0' | 1 => '1' | 2 => '2' | 3 => '3' | 4 => '4'
  | 5 => '5' | 6 => '6' | 7 => '7' | 8 => '8' | 9 => '9'
  | _ => '*'

/-- Decimal digits of a number, most significant first; the fuel argument
only bounds the recursion and any fuel larger than the number is enough. -/
def natToStringAux : Nat → Nat → List Char
  | 0, _ => []
  | fuel + 1, n =>
    if n < 10 then [digitChar n] else natToStringAux fuel (n / 10) ++ [digitChar (n % 10)]

/-- Decimal rendering of a natural number. -/
def natToString (n : Nat) : String := String.mk (natToStringAux (n + 1) n)

/-- Canonical reason phrase of an HTTP status code, as the http crate holds
it; an unassigned code renders with a placeholder. -/
def reasonPhrase (c : Nat) : String :=
  if c = 100 then "Continue" else if c = 101 then "Switching Protocols"
  else if c = 102 then "Processing"
  else if c = 200 then "OK" else if c = 201 then "Created"
  else if c = 202 then "Accepted" else if c = 203 then "Non Authoritative Information"
  else if c = 204 then "No Content" else if c = 205 then "Reset Content"
  else if c = 206 then "Partial Content" else if c = 207 then "Multi-Status"
  else if c = 208 then "Already Reported" else if c = 226 then "IM Used"
  else if c = 300 then "Multiple Choices" else if c = 301 then "Moved Permanently"
  else if c = 302 then "Found" else if c = 303 then "See Other"
  else if c = 304 then "Not Modified" else if c = 305 then "Use Proxy"
  else if c = 307 then "Temporary Redirect" else if c = 308 then "Permanent Redirect"
  else if c = 400 then "Bad Request" else if c = 401 then "Unauthorized"
  else if c = 402 then "Payment Required" else if c = 403 then "Forbidden"
  else if c = 404 then "Not Found" else if c = 405 then "Method Not Allowed"
  else if c = 406 then "Not Acceptable" else if c = 407 then "Proxy Authentication Required"
  else if c = 408 then "Request Timeout" else if c = 409 then "Conflict"
  else if c = 410 then "Gone" else if c = 411 then "Length Required"
  else if c = 412 then "Precondition Failed" else if c = 413 then "Payload Too Large"
  else if c = 414 then "URI Too Long" else if c = 415 then "Unsupported Media Type"
  else if c = 416 then "Range Not Satisfiable" else if c = 417 then "Expectation Failed"
  else if c = 418 then "I am a teapot" else if c = 421 then "Misdirected Request"
  else if c = 422 then "Unprocessable Entity" else if c = 423 then "Locked"
  else if c = 424 then "Failed Dependency" else if c = 426 then "Upgrade Required"
  else if c = 428 then "Precondition Required" else if c = 429 then "Too Many Requests"
  else if c = 431 then "Request Header Fields Too Large"
  else if c = 451 then "Unavailable For Legal Reasons"
  else if c = 500 then "Internal Server Error" else if c = 501 then "Not Implemented"
  else if c = 502 then "Bad Gateway" else if c = 503 then "Service Unavailable"
  else if c = 504 then "Gateway Timeout" else if c = 505 then "HTTP Version Not Supported"
  else if c = 506 then "Variant Also Negotiates" else if c = 507 then "Insufficient Storage"
  else if c = 508 then "Loop Detected" else if c = 510 then "Not Extended"
  else if c = 511 then "Network Authentication Required"
  else "<unknown status code>"

/-- Rendering of a status code by the Display the Rust code interpolates
into its error messages: the decimal code, a space, the reason phrase. -/
def statusDisplay (c : Nat) : String := natToString c ++ " " ++ reasonPhrase c

/-- An HTTP response as this client observes it: the status code and the
body.  The body is carried as its parse result: some JSON value when the
text is valid JSON, none when it is not; the thumbnail endpoint returns
opaque bytes, which this client never inspects, so their value is
irrelevant here. -/
structure HttpResponse where
  status : Nat
  body : Option Json
deriving Repr

/-- The error value of the Rust functions.  The Rust signatures return a
boxed dynamic error: a propagated transport (reqwest) error, a propagated
serde_json error, or a plain string converted into the box.  There is no
dedicated constructor per failure kind beyond these three sources. -/
inductive DynError where
  | transport (e : String)
  | decode (e : SerdeError)
  | message (s : String)
deriving DecidableEq, Repr

/-- The transport: a function from the requested URL to either a response
or a transport failure, standing for the blocking reqwest client. -/
def Net : Type := String → Except String HttpResponse

/-- Success range of a status code, as is_success of the http crate: the
2xx range. -/
def isSuccess (c : Nat) : Bool := 200 ≤ c && c < 300

/-- The string error the code builds for a non-success search status. -/
def fetchDataStatusMsg (c : Nat) : String :=
  "Failed to fetch data: HTTP " ++ statusDisplay c

/-- The string error the code builds for a non-success thumbnail status. -/
def thumbnailStatusMsg (c : Nat) : String :=
  "Failed to fetch thumbnail: HTTP " ++ statusDisplay c

/-- The string error the code builds when the item has no id. -/
def missingIdMsg : String := "Music item does not have an ID"

/-- Embedding of fetch_data: send the GET request, propagate a transport
failure, and turn a non-success status into a string-message error built
from the rendered status; on success return the response unchanged. -/
def WaveMusic.fetch_data (net : Net) (url : String) : Except DynError HttpResponse :=
  match net url with
  | .error e => .error (.transport e)
  | .ok r =>
    if isSuccess r.status then .ok r
    else .error (.message (fetchDataStatusMsg r.status))

/-- Embedding of parse_response: read the body text and deserialize it as
an ApiResponse, propagating a serde_json failure; a body that is not valid
JSON is a serde_json syntax failure. -/
def WaveMusic.parse_response (r : HttpResponse) : Except DynError ApiResponse :=
  match r.body with
  | none => .error (.decode .notJson)
  | some j =>
    match ApiResponse.fromJson j with
    | .error e => .error (.decode e)
    | .ok a => .ok a

/-- The search URL: the fixed endpoint with the query appended verbatim by
string interpolation, no escaping. -/
def searchUrl (q : String) : String :=
  "https://api.wireway.ch/wave/ytmusicsearch?q=" ++ q

/-- The thumbnail URL: the fixed endpoint with the id appended verbatim. -/
def thumbnailUrl (id : String) : String :=
  "https://api.wireway.ch/wave/thumbnail/" ++ id

/-- Embedding of WaveMusic::new, the search operation: build the URL, fetch
it (the question-mark operator propagating the failure is Except.bind),
parse the response, and return the items.  The second component is the
list of URLs requested over the transport. -/
def WaveMusic.new (q : String) (net : Net) :
    Except DynError (List WaveMusic) × List String :=
  let url := searchUrl q
  ((WaveMusic.fetch_data net url).bind
    (fun r => (WaveMusic.parse_response r).map (fun a => a.items)), [url])

/-- One thumbnail request over the transport: a transport failure
propagates, a non-success status becomes a string-message error, and a
success returns the raw response, as the body of WaveMusic::thumbnail
does after its id check. -/
def thumbFetch (net : Net) (url : String) : Except DynError HttpResponse :=
  match net url with
  | .error e => .error (.transport e)
  | .ok r =>
    if isSuccess r.status then .ok r
    else .error (.message (thumbnailStatusMsg r.status))

/-- Embedding of WaveMusic::thumbnail: an absent id fails at once with the
missing-id string error and no request; otherwise the thumbnail URL is
requested once.  The second component is the list of URLs requested over
the transport. -/
def WaveMusic.thumbnail (m : WaveMusic) (net : Net) :
    Except DynError HttpResponse × List String :=
  match m.id with
  | none => (.error (.message missingIdMsg), [])
  | some id =>
    let url := thumbnailUrl id
    (thumbFetch net url, [url])

/-- Numeric value of a decimal digit character. -/
def charVal (c : Char) : Nat := c.toNat - 48

/-- Number denoted by a list of decimal digit characters. -/
def ofDigits (l : List Char) : Nat := l.foldl (fun a c => 10 * a + charVal c) 0

theorem charVal_digitChar (n : Nat) (h : n < 10) : charVal (digitChar n) = n := by
  interval_cases n <;> rfl

theorem digitChar_ne_space (n : Nat) : digitChar n ≠ ' ' := by
  unfold digitChar
  split <;> decide

theorem natToStringAux_ne_space :
    ∀ fuel n : Nat, ∀ c ∈ natToStringAux fuel n, c ≠ ' ' := by
  intro fuel
  induction fuel with
  | zero => intro n c hc; simp [natToStringAux] at hc
  | succ fuel ih =>
    intro n c hc
    rw [natToStringAux] at hc
    by_cases h : n < 10
    · rw [if_pos h] at hc
      simp at hc
      subst hc
      exact digitChar_ne_space n
    · rw [if_neg h] at hc
      rcases List.mem_append.1 hc with h1 | h1
      · exact ih (n / 10) c h1
      · simp at h1
        subst h1
        exact digitChar_ne_space (n % 10)

theorem ofDigits_natToStringAux :
    ∀ fuel n : Nat, n < fuel → ofDigits (natToStringAux fuel n) = n := by
  intro fuel
  induction fuel with
  | zero => intro n h; omega
  | succ fuel ih =>
    intro n h
    rw [natToStringAux]
    by_cases h10 : n < 10
    · rw [if_pos h10]
      simp [ofDigits, List.foldl, charVal_digitChar n h10]
    · rw [if_neg h10]
      have hdiv : n / 10 < fuel := by omega
      unfold ofDigits
      rw [List.foldl_append]
      have := ih (n / 10) hdiv
      unfold ofDigits at this
      rw [this]
      simp [List.foldl, charVal_digitChar (n % 10) (Nat.mod_lt n (by omega))]
      omega

theorem natToString_inj {a b : Nat} (h : natToString a = natToString b) : a = b := by
  have hd : natToStringAux (a + 1) a = natToStringAux (b + 1) b :=
    congrArg String.data h
  have ha := ofDigits_natToStringAux (a + 1) a (Nat.lt_succ_self a)
  have hb := ofDigits_natToStringAux (b + 1) b (Nat.lt_succ_self b)
  rw [← ha, ← hb, hd]

theorem sep_append_inj :
    ∀ l₁ l₂ r₁ r₂ : List Char, (∀ c ∈ l₁, c ≠ ' ') → (∀ c ∈ l₂, c ≠ ' ') →
      l₁ ++ ' ' :: r₁ = l₂ ++ ' ' :: r₂ → l₁ = l₂ := by
  intro l₁
  induction l₁ with
  | nil =>
    intro l₂ r₁ r₂ _ h₂ h
    cases l₂ with
    | nil => rfl
    | cons b bs =>
      exfalso
      apply h₂ b (List.mem_cons_self b bs)
      exact (List.cons.inj h.symm).1
  | cons a as ih =>
    intro l₂ r₁ r₂ h₁ h₂ h
    cases l₂ with
    | nil =>
      exfalso
      apply h₁ a (List.mem_cons_self a as)
      exact (List.cons.inj h).1
    | cons b bs =>
      have hab := List.cons.inj h
      have : as = bs :=
        ih bs r₁ r₂ (fun c hc => h₁ c (List.mem_cons_of_mem a hc))
          (fun c hc => h₂ c (List.mem_cons_of_mem b hc)) hab.2
      rw [hab.1, this]

theorem statusDisplay_data (c : Nat) :
    (statusDisplay c).data =
      natToStringAux (c + 1) c ++ ' ' :: (reasonPhrase c).data := by
  show (natToString c ++ " " ++ reasonPhrase c).data = _
  rw [String.data_append, String.data_append]
  show natToStringAux (c + 1) c ++ [' '] ++ (reasonPhrase c).data = _
  rw [List.append_assoc]
  rfl

theorem statusDisplay_inj : Function.Injective statusDisplay := by
  intro c₁ c₂ h
  have hd := congrArg String.data h
  rw [statusDisplay_data, statusDisplay_data] at hd
  have hdigits : natToStringAux (c₁ + 1) c₁ = natToStringAux (c₂ + 1) c₂ :=
    sep_append_inj _ _ _ _ (natToStringAux_ne_space (c₁ + 1) c₁)
      (natToStringAux_ne_space (c₂ + 1) c₂) hd
  exact natToString_inj (String.ext hdigits)

theorem string_append_left_cancel {p s t : String} (h : p ++ s = p ++ t) : s = t := by
  apply String.ext
  have hd := congrArg String.data h
  rw [String.data_append, String.data_append] at hd
  exact List.append_cancel_left hd

theorem fetchDataStatusMsg_inj : Function.Injective fetchDataStatusMsg := by
  intro c₁ c₂ h
  exact statusDisplay_inj (string_append_left_cancel h)

theorem thumbnailStatusMsg_inj : Function.Injective thumbnailStatusMsg := by
  intro c₁ c₂ h
  exact statusDisplay_inj (string_append_left_cancel h)

theorem deItems_forall2 :
    ∀ es : List Json, ∀ ms : List WaveMusic, deItems es = .ok ms →
      List.Forall₂ (fun e it => WaveMusic.fromJson e = .ok it) es ms := by
  intro es
  induction es with
  | nil =>
    intro ms h
    rw [deItems] at h
    cases h
    exact List.Forall₂.nil
  | cons j rest ih =>
    intro ms h
    rw [deItems] at h
    cases h1 : WaveMusic.fromJson j with
    | error e => rw [h1] at h; cases h
    | ok m =>
      rw [h1] at h
      cases h2 : deItems rest with
      | error e => rw [h2] at h; cases h
      | ok ms2 =>
        rw [h2] at h
        cases h
        exact List.Forall₂.cons h1 (ih ms2 h2)

theorem arFields_no_items :
    ∀ fields : List (String × Json), (∀ kv ∈ fields, kv.1 ≠ "items") →
      arFields none fields = .error (.missingField "items") := by
  intro fields
  induction fields with
  | nil => intro _; rfl
  | cons kv rest ih =>
    intro h
    rw [arFields]
    rw [if_neg (h kv (List.mem_cons_self kv rest))]
    exact ih (fun kv2 h2 => h kv2 (List.mem_cons_of_mem kv h2))

theorem deOptU32_range (v : Json) (o : Option Nat) (h : deOptU32 v = .ok o) :
    ∀ d, o = some d → d < 4294967296 := by
  intro d hd
  subst hd
  cases v with
  | null => cases h
  | num n =>
    cases n with
    | int i =>
      rw [deOptU32] at h
      by_cases hr : 0 ≤ i ∧ i < 4294967296
      · rw [if_pos hr] at h
        cases h
        omega
      · rw [if_neg hr] at h
        cases h
    | float q => cases h
  | bool b => cases h
  | str s => cases h
  | arr xs => cases h
  | obj fs => cases h

theorem wmStep_duration_range (acc acc2 : WMAcc) (k : String) (v : Json)
    (h : wmStep acc k v = .ok acc2)
    (hacc : ∀ d, acc.duration = some (some d) → d < 4294967296) :
    ∀ d, acc2.duration = some (some d) → d < 4294967296 := by
  rw [wmStep] at h
  by_cases h1 : k = "title"
  · rw [if_pos h1] at h
    cases ha : acc.title with
    | some _ => rw [ha] at h; cases h
    | none =>
      rw [ha] at h
      cases hs : deOptString v with
      | error e => rw [hs] at h; cases h
      | ok s => rw [hs] at h; cases h; exact hacc
  · rw [if_neg h1] at h
    by_cases h2 : k = "uploaderName"
    · rw [if_pos h2] at h
      cases ha : acc.uploader_name with
      | some _ => rw [ha] at h; cases h
      | none =>
        rw [ha] at h
        cases hs : deOptString v with
        | error e => rw [hs] at h; cases h
        | ok s => rw [hs] at h; cases h; exact hacc
    · rw [if_neg h2] at h
      by_cases h3 : k = "uploaderUrl"
      · rw [if_pos h3] at h
        cases ha : acc.uploader_url with
        | some _ => rw [ha] at h; cases h
        | none =>
          rw [ha] at h
          cases hs : deOptString v with
          | error e => rw [hs] at h; cases h
          | ok s => rw [hs] at h; cases h; exact hacc
      · rw [if_neg h3] at h
        by_cases h4 : k = "duration"
        · rw [if_pos h4] at h
          cases ha : acc.duration with
          | some _ => rw [ha] at h; cases h
          | none =>
            rw [ha] at h
            cases hs : deOptU32 v with
            | error e => rw [hs] at h; cases h
            | ok o =>
              rw [hs] at h
              cases h
              intro d hd
              simp at hd
              exact deOptU32_range v o hs d hd
        · rw [if_neg h4] at h
          by_cases h5 : k = "id"
          · rw [if_pos h5] at h
            cases ha : acc.id with
            | some _ => rw [ha] at h; cases h
            | none =>
              rw [ha] at h
              cases hs : deOptString v with
              | error e => rw [hs] at h; cases h
              | ok s => rw [hs] at h; cases h; exact hacc
          · rw [if_neg h5] at h
            cases h
            exact hacc

theorem wmFields_duration_range :
    ∀ l : List (String × Json), ∀ acc : WMAcc, ∀ m : WaveMusic,
      wmFields acc l = .ok m →
      (∀ d, acc.duration = some (some d) → d < 4294967296) →
      ∀ d, m.duration = some d → d < 4294967296 := by
  intro l
  induction l with
  | nil =>
    intro acc m h hacc d hd
    rw [wmFields] at h
    cases h
    cases ha : acc.duration with
    | none => simp [ha] at hd
    | some o =>
      apply hacc
      rw [ha]
      simp at hd
      rw [ha] at hd
      simp at hd
      rw [hd]
  | cons kv rest ih =>
    intro acc m h hacc d hd
    rw [wmFields] at h
    cases hs : wmStep acc kv.1 kv.2 with
    | error e => rw [hs] at h; cases h
    | ok acc2 =>
      rw [hs] at h
      exact ih acc2 m h (wmStep_duration_range acc acc2 kv.1 kv.2 hs hacc) d hd

theorem fromJson_duration_range (j : Json) (m : WaveMusic)
    (h : WaveMusic.fromJson j = .ok m) :
    ∀ d, m.duration = some d → d < 4294967296 := by
  cases j with
  | obj fields =>
    rw [WaveMusic.fromJson] at h
    exact wmFields_duration_range fields WMAcc.init m h (fun d hd => by cases hd)
  | null => cases h
  | bool b => cases h
  | num v => cases h
  | str s => cases h
  | arr xs => cases h

theorem forall2_mem_right {α β : Type} {R : α → β → Prop} :
    ∀ {es : List α} {ms : List β}, List.Forall₂ R es ms → ∀ m ∈ ms, ∃ j ∈ es, R j m := by
  intro es ms h
  induction h with
  | nil => intro m hm; cases hm
  | cons hr _ ih =>
    intro m hm
    rcases List.mem_cons.1 hm with h1 | h1
    · subst h1
      exact ⟨_, List.mem_cons_self _ _, hr⟩
    · obtain ⟨j, hj, hr2⟩ := ih m h1
      exact ⟨j, List.mem_cons_of_mem _ hj, hr2⟩

theorem arFields_duration_range :
    ∀ l : List (String × Json), ∀ found : Option (List WaveMusic), ∀ a : ApiResponse,
      arFields found l = .ok a →
      (∀ xs, found = some xs → ∀ m ∈ xs, ∀ d, m.duration = some d → d < 4294967296) →
      ∀ m ∈ a.items, ∀ d, m.duration = some d → d < 4294967296 := by
  intro l
  induction l with
  | nil =>
    intro found a h hf
    cases found with
    | none => rw [arFields] at h; cases h
    | some xs =>
      rw [arFields] at h
      cases h
      exact hf xs rfl
  | cons kv rest ih =>
    intro found a h hf
    cases found with
    | some xs =>
      rw [arFields] at h
      by_cases hk : kv.1 = "items"
      · rw [if_pos hk] at h
        cases h
      · rw [if_neg hk] at h
        exact ih (some xs) a h hf
    | none =>
      rw [arFields] at h
      by_cases hk : kv.1 = "items"
      · rw [if_pos hk] at h
        cases hv : kv.2 with
        | arr es =>
          rw [hv] at h
          have h2 : (deItems es).bind (fun ms => arFields (some ms) rest) = .ok a := h
          cases hd : deItems es with
          | error e => rw [hd] at h2; cases h2
          | ok ms =>
            rw [hd] at h2
            apply ih (some ms) a h2
            intro xs hxs m hm
            cases hxs
            have hall := deItems_forall2 es ms hd
            obtain ⟨j, _, hj⟩ := forall2_mem_right hall m hm
            exact fromJson_duration_range j m hj
        | null => rw [hv] at h; cases h
        | bool b => rw [hv] at h; cases h
        | num v => rw [hv] at h; cases h
        | str s => rw [hv] at h; cases h
        | obj fs => rw [hv] at h; cases h
      · rw [if_neg hk] at h
        exact ih none a h hf

theorem apiResponse_duration_range (j : Json) (a : ApiResponse)
    (h : ApiResponse.fromJson j = .ok a) :
    ∀ m ∈ a.items, ∀ d, m.duration = some d → d < 4294967296 := by
  cases j with
  | obj fields =>
    rw [ApiResponse.fromJson] at h
    exact arFields_duration_range fields none a h (fun xs hxs => by cases hxs)
  | null => cases h
  | bool b => cases h
  | num v => cases h
  | str s => cases h
  | arr xs => cases h

theorem new_requests (q : String) (net : Net) :
    (WaveMusic.new q net).2 = [searchUrl q] := rfl

theorem thumbnail_requests_some (m : WaveMusic) (i : String) (net : Net)
    (hi : m.id = some i) :
    (WaveMusic.thumbnail m net).2 = [thumbnailUrl i] := by
  simp only [WaveMusic.thumbnail, hi]

theorem fetch_data_transport (net : Net) (url : String) (e : String)
    (h : net url = .error e) :
    WaveMusic.fetch_data net url = .error (.transport e) := by
  simp only [WaveMusic.fetch_data, h]

theorem fetch_data_status (net : Net) (url : String) (r : HttpResponse)
    (h : net url = .ok r) (hs : isSuccess r.status = false) :
    WaveMusic.fetch_data net url = .error (.message (fetchDataStatusMsg r.status)) := by
  simp only [WaveMusic.fetch_data, h]
  rw [if_neg]
  simp [hs]

theorem fetch_data_ok (net : Net) (url : String) (r : HttpResponse)
    (h : net url = .ok r) (hs : isSuccess r.status = true) :
    WaveMusic.fetch_data net url = .ok r := by
  simp only [WaveMusic.fetch_data, h]
  rw [if_pos hs]

theorem new_result (q : String) (net : Net) :
    (WaveMusic.new q net).1 =
      (WaveMusic.fetch_data net (searchUrl q)).bind
        (fun r => (WaveMusic.parse_response r).map (fun a => a.items)) := rfl

theorem new_result_transport (q : String) (net : Net) (e : String)
    (h : net (searchUrl q) = .error e) :
    (WaveMusic.new q net).1 = .error (.transport e) := by
  rw [new_result, fetch_data_transport net (searchUrl q) e h]
  rfl

theorem new_result_status (q : String) (net : Net) (r : HttpResponse)
    (h : net (searchUrl q) = .ok r) (hs : isSuccess r.status = false) :
    (WaveMusic.new q net).1 = .error (.message (fetchDataStatusMsg r.status)) := by
  rw [new_result, fetch_data_status net (searchUrl q) r h hs]
  rfl

theorem new_result_decode (q : String) (net : Net) (r : HttpResponse) (e : DynError)
    (h : net (searchUrl q) = .ok r) (hs : isSuccess r.status = true)
    (hp : WaveMusic.parse_response r = .error e) :
    (WaveMusic.new q net).1 = .error e := by
  rw [new_result, fetch_data_ok net (searchUrl q) r h hs]
  show ((WaveMusic.parse_response r).map (fun a => a.items)) = .error e
  rw [hp]
  rfl

theorem new_result_ok (q : String) (net : Net) (r : HttpResponse) (a : ApiResponse)
    (h : net (searchUrl q) = .ok r) (hs : isSuccess r.status = true)
    (hp : WaveMusic.parse_response r = .ok a) :
    (WaveMusic.new q net).1 = .ok a.items := by
  rw [new_result, fetch_data_ok net (searchUrl q) r h hs]
  show ((WaveMusic.parse_response r).map (fun a => a.items)) = .ok a.items
  rw [hp]
  rfl

theorem parse_response_decode (r : HttpResponse) (j : Json) (se : SerdeError)
    (hb : r.body = some j) (hj : ApiResponse.fromJson j = .error se) :
    WaveMusic.parse_response r = .error (.decode se) := by
  simp only [WaveMusic.parse_response, hb, hj]

theorem parse_response_ok (r : HttpResponse) (j : Json) (a : ApiResponse)
    (hb : r.body = some j) (hj : ApiResponse.fromJson j = .ok a) :
    WaveMusic.parse_response r = .ok a := by
  simp only [WaveMusic.parse_response, hb, hj]

theorem thumbnail_result_none (m : WaveMusic) (net : Net) (hi : m.id = none) :
    WaveMusic.thumbnail m net = (.error (.message missingIdMsg), []) := by
  simp only [WaveMusic.thumbnail, hi]

theorem thumbnail_result_some (m : WaveMusic) (i : String) (net : Net)
    (hi : m.id = some i) :
    (WaveMusic.thumbnail m net).1 = thumbFetch net (thumbnailUrl i) := by
  simp only [WaveMusic.thumbnail, hi]

theorem thumbFetch_transport (net : Net) (url : String) (e : String)
    (h : net url = .error e) :
    thumbFetch net url = .error (.transport e) := by
  simp only [thumbFetch, h]

theorem thumbFetch_status (net : Net) (url : String) (r : HttpResponse)
    (h : net url = .ok r) (hs : isSuccess r.status = false) :
    thumbFetch net url = .error (.message (thumbnailStatusMsg r.status)) := by
  simp only [thumbFetch, h]
  rw [if_neg]
  simp [hs]

theorem thumbFetch_ok (net : Net) (url : String) (r : HttpResponse)
    (h : net url = .ok r) (hs : isSuccess r.status = true) :
    thumbFetch net url = .ok r := by
  simp only [thumbFetch, h]
  rw [if_pos hs]

theorem deOptString_optStrJson (o : Option String) : deOptString (optStrJson o) = .ok o := by
  cases o <;> rfl

theorem deOptU32_optU32Json (o : Option Nat)
    (h : ∀ d, o = some d → d < 4294967296) : deOptU32 (optU32Json o) = .ok o := by
  cases o with
  | none => rfl
  | some d =>
    have hd := h d rfl
    simp only [optU32Json, deOptU32]
    rw [if_pos]
    · simp
    · constructor
      · exact Int.natCast_nonneg d
      · exact_mod_cast hd

theorem wm_roundtrip (m : WaveMusic)
    (h : ∀ d, m.duration = some d → d < 4294967296) :
    WaveMusic.fromJson (WaveMusic.toJson m) = .ok m := by
  obtain ⟨t, u, uu, dur, i⟩ := m
  simp only [WaveMusic.toJson, WaveMusic.fromJson, wmFields, wmStep, WMAcc.init,
    deOptString_optStrJson, deOptU32_optU32Json dur h]
  simp

theorem deItems_map_roundtrip :
    ∀ ms : List WaveMusic, (∀ m ∈ ms, ∀ d, m.duration = some d → d < 4294967296) →
      deItems (ms.map WaveMusic.toJson) = .ok ms := by
  intro ms
  induction ms with
  | nil => intro _; rfl
  | cons m rest ih =>
    intro h
    simp only [List.map_cons, deItems, wm_roundtrip m (h m (List.mem_cons_self m rest)),
      ih (fun m2 hm2 => h m2 (List.mem_cons_of_mem m hm2))]

theorem api_roundtrip (j : Json) (a : ApiResponse)
    (h : ApiResponse.fromJson j = .ok a) :
    ApiResponse.fromJson (ApiResponse.toJson a) = .ok a := by
  have hr := apiResponse_duration_range j a h
  obtain ⟨items⟩ := a
  simp only [ApiResponse.toJson, ApiResponse.fromJson, arFields,
    deItems_map_roundtrip items (fun m hm => hr m hm), Except.bind]
  simp [arFields]

/-- C2: calling the thumbnail operation on an item whose id is absent
fails immediately with the missing-id error, realized as the string-message
boxed error the code builds, and issues zero network calls: the transport
is never invoked and the request log is empty. -/
theorem c2_thumbnail_without_id (m : WaveMusic) (net : Net) (h : m.id = none) :
    (WaveMusic.thumbnail m net).1 = .error (.message missingIdMsg)
    ∧ (WaveMusic.thumbnail m net).2 = [] := by
  rw [thumbnail_result_none m net h]
  exact ⟨rfl, rfl⟩

/-- C2 witness: the item with no id at a concrete transport. -/
theorem c2_thumbnail_without_id_witness :
    (⟨some "Song", none, none, none, none⟩ : WaveMusic).id = none
    ∧ ((WaveMusic.thumbnail ⟨some "Song", none, none, none, none⟩
          (fun _ => .ok ⟨200, none⟩)).1 = .error (.message missingIdMsg)
        ∧ (WaveMusic.thumbnail ⟨some "Song", none, none, none, none⟩
            (fun _ => .ok ⟨200, none⟩)).2 = []) :=
  ⟨rfl, c2_thumbnail_without_id ⟨some "Song", none, none, none, none⟩
    (fun _ => .ok ⟨200, none⟩) rfl⟩

/-- C6: the human-readable rendering of a music item is exactly the title,
the word from, and the uploader name, an absent field rendered as the empty
string: a Song by Artist item renders as Song from Artist, and an item with
both fields absent renders as the bare separator; the rendering is a pure
function of the item. -/
theorem c6_display_format (t u uu : Option String) (d : Option Nat) (i : Option String) :
    WaveMusic.display ⟨t, u, uu, d, i⟩ = t.getD "" ++ " from " ++ u.getD ""
    ∧ WaveMusic.display ⟨some "Song", some "Artist", uu, d, i⟩ = "Song from Artist"
    ∧ WaveMusic.display ⟨none, none, uu, d, i⟩ = " from " :=
  ⟨rfl, rfl, rfl⟩

/-- C8: the search operation issues exactly one GET, to the fixed search
endpoint with the query appended verbatim with no escaping, and the
thumbnail operation on an item with a present id issues exactly one GET,
to the fixed thumbnail endpoint with the id appended verbatim. -/
theorem c8_request_urls (q : String) (net net2 : Net) (m : WaveMusic) (i : String)
    (hi : m.id = some i) :
    (WaveMusic.new q net).2 = ["https://api.wireway.ch/wave/ytmusicsearch?q=" ++ q]
    ∧ (WaveMusic.thumbnail m net2).2 = ["https://api.wireway.ch/wave/thumbnail/" ++ i] :=
  ⟨new_requests q net, thumbnail_requests_some m i net2 hi⟩

/-- C8 witness: a concrete query and a concrete id. -/
theorem c8_request_urls_witness :
    (⟨none, none, none, none, some "xyz"⟩ : WaveMusic).id = some "xyz"
    ∧ ((WaveMusic.new "abc" (fun _ => .ok ⟨200, none⟩)).2 =
        ["https://api.wireway.ch/wave/ytmusicsearch?q=" ++ "abc"]
      ∧ (WaveMusic.thumbnail ⟨none, none, none, none, some "xyz"⟩
          (fun _ => .ok ⟨200, none⟩)).2 =
        ["https://api.wireway.ch/wave/thumbnail/" ++ "xyz"]) :=
  ⟨rfl, c8_request_urls "abc" (fun _ => .ok ⟨200, none⟩) (fun _ => .ok ⟨200, none⟩)
    ⟨none, none, none, none, some "xyz"⟩ "xyz" rfl⟩

/-- C9: the claim is false on the code: the id check of the thumbnail
operation only tests for an absent id, so an item whose id is present but
equal to the empty string is accepted, one GET to the thumbnail endpoint
with an empty trailing segment is issued, and the success response is
returned, rather than failing without a network request. -/
theorem c9_empty_id_counterexample :
    WaveMusic.thumbnail ⟨none, none, none, none, some ""⟩
      (fun _ => .ok ⟨200, none⟩) =
      (.ok ⟨200, none⟩, ["https://api.wireway.ch/wave/thumbnail/"]) := rfl

/-- C9 (amended): only an absent id triggers the immediate missing-id
failure; an item whose id is present but empty is accepted like any other
present id: the thumbnail endpoint is requested once, with an empty
trailing segment, and the outcome is exactly the outcome of that request. -/
theorem c9_empty_id_accepted (t u uu : Option String) (d : Option Nat) (net : Net) :
    (WaveMusic.thumbnail ⟨t, u, uu, d, some ""⟩ net).2 =
      ["https://api.wireway.ch/wave/thumbnail/"]
    ∧ (WaveMusic.thumbnail ⟨t, u, uu, d, some ""⟩ net).1 =
      thumbFetch net "https://api.wireway.ch/wave/thumbnail/" :=
  ⟨thumbnail_requests_some ⟨t, u, uu, d, some ""⟩ "" net rfl,
    thumbnail_result_some ⟨t, u, uu, d, some ""⟩ "" net rfl⟩

/-- C1: the claim is false on the code: the operations return a boxed
dynamic error, and both the non-success-status failure and the missing-id
failure surface through the same plain string-message constructor, the
status code carried only inside the formatted text, so there is no closed
four-variant tagged union for callers to match on exhaustively. -/
theorem c1_closed_union_counterexample :
    (WaveMusic.new "a" (fun _ => .ok ⟨404, none⟩)).1 =
      .error (.message "Failed to fetch data: HTTP 404 Not Found")
    ∧ (WaveMusic.thumbnail ⟨none, none, none, none, none⟩
        (fun _ => .ok ⟨404, none⟩)).1 =
      .error (.message "Music item does not have an ID") :=
  ⟨rfl, rfl⟩

/-- C1 (amended): every outcome of the search and thumbnail operations is
a success, a propagated transport error, a propagated decode error, or a
plain string-message error, the string messages covering both the
non-success-status failures and the missing-id failure; the errors fall
into these informal kinds but share the open string representation rather
than forming a closed tagged union. -/
theorem c1_error_classification (q : String) (m : WaveMusic) (net net2 : Net) :
    ((∃ items, (WaveMusic.new q net).1 = .ok items)
      ∨ (∃ e, (WaveMusic.new q net).1 = .error (.transport e))
      ∨ (∃ se, (WaveMusic.new q net).1 = .error (.decode se))
      ∨ (∃ c, isSuccess c = false
          ∧ (WaveMusic.new q net).1 = .error (.message (fetchDataStatusMsg c))))
    ∧ ((∃ r, (WaveMusic.thumbnail m net2).1 = .ok r)
      ∨ (∃ e, (WaveMusic.thumbnail m net2).1 = .error (.transport e))
      ∨ (WaveMusic.thumbnail m net2).1 = .error (.message missingIdMsg)
      ∨ (∃ c, isSuccess c = false
          ∧ (WaveMusic.thumbnail m net2).1 = .error (.message (thumbnailStatusMsg c)))) := by
  constructor
  · cases hn : net (searchUrl q) with
    | error e =>
      right; left
      exact ⟨e, new_result_transport q net e hn⟩
    | ok r =>
      cases hs : isSuccess r.status with
      | false =>
        right; right; right
        exact ⟨r.status, hs, new_result_status q net r hn hs⟩
      | true =>
        cases hb : r.body with
        | none =>
          right; right; left
          exact ⟨.notJson, new_result_decode q net r _ hn hs
            (by simp [WaveMusic.parse_response, hb])⟩
        | some j =>
          cases hj : ApiResponse.fromJson j with
          | error se =>
            right; right; left
            exact ⟨se, new_result_decode q net r _ hn hs
              (parse_response_decode r j se hb hj)⟩
          | ok a =>
            left
            exact ⟨a.items, new_result_ok q net r a hn hs
              (parse_response_ok r j a hb hj)⟩
  · cases hid : m.id with
    | none =>
      right; right; left
      rw [thumbnail_result_none m net2 hid]
    | some i =>
      cases hn : net2 (thumbnailUrl i) with
      | error e =>
        right; left
        refine ⟨e, ?_⟩
        rw [thumbnail_result_some m i net2 hid, thumbFetch_transport net2 _ e hn]
      | ok r =>
        cases hs : isSuccess r.status with
        | false =>
          right; right; right
          refine ⟨r.status, hs, ?_⟩
          rw [thumbnail_result_some m i net2 hid, thumbFetch_status net2 _ r hn hs]
        | true =>
          left
          refine ⟨r, ?_⟩
          rw [thumbnail_result_some m i net2 hid, thumbFetch_ok net2 _ r hn hs]

/-- C3: a response with a status outside the 2xx range, on either
endpoint, yields the status string-message error built from the exact
status code, the rendered message determining the code uniquely (both
message builders are injective), and the response body is never parsed:
the search outcome is identical for any two bodies under that status. -/
theorem c3_non_success_status (q : String) (c : Nat) (b b2 : Option Json)
    (m : WaveMusic) (i : String) (hc : isSuccess c = false) (hi : m.id = some i) :
    (WaveMusic.new q (fun _ => .ok ⟨c, b⟩)).1 = .error (.message (fetchDataStatusMsg c))
    ∧ WaveMusic.new q (fun _ => .ok ⟨c, b⟩) = WaveMusic.new q (fun _ => .ok ⟨c, b2⟩)
    ∧ (WaveMusic.thumbnail m (fun _ => .ok ⟨c, b⟩)).1 =
        .error (.message (thumbnailStatusMsg c))
    ∧ Function.Injective fetchDataStatusMsg
    ∧ Function.Injective thumbnailStatusMsg := by
  refine ⟨?_, ?_, ?_, fetchDataStatusMsg_inj, thumbnailStatusMsg_inj⟩
  · exact new_result_status q (fun _ => .ok ⟨c, b⟩) ⟨c, b⟩ rfl hc
  · have h1 := new_result_status q (fun _ => .ok ⟨c, b⟩) ⟨c, b⟩ rfl hc
    have h2 := new_result_status q (fun _ => .ok ⟨c, b2⟩) ⟨c, b2⟩ rfl hc
    have r1 := new_requests q (fun _ => .ok ⟨c, b⟩)
    have r2 := new_requests q (fun _ => .ok ⟨c, b2⟩)
    apply Prod.ext
    · rw [h1, h2]
    · rw [r1, r2]
  · rw [thumbnail_result_some m i (fun _ => .ok ⟨c, b⟩) hi,
      thumbFetch_status (fun _ => .ok ⟨c, b⟩) (thumbnailUrl i) ⟨c, b⟩ rfl hc]

/-- C3 witness: status 404 with two different bodies and a present id. -/
theorem c3_non_success_status_witness :
    isSuccess 404 = false
    ∧ (⟨none, none, none, none, some "x"⟩ : WaveMusic).id = some "x"
    ∧ ((WaveMusic.new "a" (fun _ => .ok ⟨404, none⟩)).1 =
        .error (.message (fetchDataStatusMsg 404))
      ∧ WaveMusic.new "a" (fun _ => .ok ⟨404, none⟩) =
          WaveMusic.new "a" (fun _ => .ok ⟨404, some .null⟩)
      ∧ (WaveMusic.thumbnail ⟨none, none, none, none, some "x"⟩
          (fun _ => .ok ⟨404, none⟩)).1 =
          .error (.message (thumbnailStatusMsg 404))
      ∧ Function.Injective fetchDataStatusMsg
      ∧ Function.Injective thumbnailStatusMsg) :=
  ⟨rfl, rfl, c3_non_success_status "a" 404 none (some .null)
    ⟨none, none, none, none, some "x"⟩ "x" rfl rfl⟩

/-- C4: on a 2xx response whose body parses as the expected shape, the
search operation returns exactly the parsed items; the items correspond
one-for-one, in order, to the elements of the items array; and a response
whose items array is empty yields the empty list, not an error. -/
theorem c4_search_items_order (q : String) (c : Nat) (j : Json)
    (items : List WaveMusic) (es : List Json) (hc : isSuccess c = true) :
    (ApiResponse.fromJson j = .ok ⟨items⟩ →
      (WaveMusic.new q (fun _ => .ok ⟨c, some j⟩)).1 = .ok items)
    ∧ (ApiResponse.fromJson (.obj [("items", .arr es)]) = .ok ⟨items⟩ →
        List.Forall₂ (fun e it => WaveMusic.fromJson e = .ok it) es items)
    ∧ (WaveMusic.new q (fun _ => .ok ⟨c, some (.obj [("items", .arr [])])⟩)).1 =
        .ok [] := by
  refine ⟨?_, ?_, ?_⟩
  · intro h
    exact new_result_ok q (fun _ => .ok ⟨c, some j⟩) ⟨c, some j⟩ ⟨items⟩ rfl hc
      (parse_response_ok ⟨c, some j⟩ j ⟨items⟩ rfl h)
  · intro h
    have h2 : (deItems es).bind (fun ms => arFields (some ms) []) = .ok ⟨items⟩ := h
    cases hd : deItems es with
    | error e => rw [hd] at h2; cases h2
    | ok ms =>
      rw [hd] at h2
      have h2b : Except.ok (⟨ms⟩ : ApiResponse) = .ok (⟨items⟩ : ApiResponse) := h2
      injection h2b with h3
      injection h3 with h4
      subst h4
      exact deItems_forall2 es ms hd
  · exact new_result_ok q (fun _ => .ok ⟨c, some (.obj [("items", .arr [])])⟩)
      ⟨c, some (.obj [("items", .arr [])])⟩ ⟨[]⟩ rfl hc
      (parse_response_ok ⟨c, some (.obj [("items", .arr [])])⟩
        (.obj [("items", .arr [])]) ⟨[]⟩ rfl rfl)

/-- C4 witness: a one-element items array and the empty items array. -/
theorem c4_search_items_order_witness :
    isSuccess 200 = true
    ∧ ApiResponse.fromJson (.obj [("items", .arr [.obj []])]) =
        .ok ⟨[⟨none, none, none, none, none⟩]⟩
    ∧ (WaveMusic.new "a"
        (fun _ => .ok ⟨200, some (.obj [("items", .arr [.obj []])])⟩)).1 =
        .ok [⟨none, none, none, none, none⟩]
    ∧ List.Forall₂ (fun e it => WaveMusic.fromJson e = .ok it)
        [.obj []] [⟨none, none, none, none, none⟩]
    ∧ (WaveMusic.new "a"
        (fun _ => .ok ⟨200, some (.obj [("items", .arr [])])⟩)).1 = .ok [] :=
  ⟨rfl, rfl,
    (c4_search_items_order "a" 200 (.obj [("items", .arr [.obj []])])
      [⟨none, none, none, none, none⟩] [.obj []] rfl).1 rfl,
    (c4_search_items_order "a" 200 (.obj [("items", .arr [.obj []])])
      [⟨none, none, none, none, none⟩] [.obj []] rfl).2.1 rfl,
    (c4_search_items_order "a" 200 (.obj [("items", .arr [.obj []])])
      [⟨none, none, none, none, none⟩] [.obj []] rfl).2.2⟩

/-- C5: a 2xx response whose JSON object body lacks the top-level items
key makes the search fail with the decode error for the missing field. -/
theorem c5_missing_items_key (q : String) (c : Nat) (fields : List (String × Json))
    (hc : isSuccess c = true) (hno : ∀ kv ∈ fields, kv.1 ≠ "items") :
    (WaveMusic.new q (fun _ => .ok ⟨c, some (.obj fields)⟩)).1 =
      .error (.decode (.missingField "items")) := by
  apply new_result_decode q (fun _ => .ok ⟨c, some (.obj fields)⟩)
    ⟨c, some (.obj fields)⟩ _ rfl hc
  apply parse_response_decode ⟨c, some (.obj fields)⟩ (.obj fields) _ rfl
  exact arFields_no_items fields hno

/-- C5 witness: an object body with an unrelated key and no items key. -/
theorem c5_missing_items_key_witness :
    isSuccess 200 = true
    ∧ (∀ kv ∈ [(("other" : String), Json.null)], kv.1 ≠ "items")
    ∧ (WaveMusic.new "a"
        (fun _ => .ok ⟨200, some (.obj [("other", .null)])⟩)).1 =
        .error (.decode (.missingField "items")) :=
  ⟨rfl, by decide, c5_missing_items_key "a" 200 [("other", .null)] rfl (by decide)⟩

/-- C7: the claim is false on the code: a field absent from the source
JSON deserializes to the no-value marker but re-serializes as an explicit
null, so the key is present in the output although it was absent in the
source object. -/
theorem c7_presence_counterexample :
    WaveMusic.fromJson (.obj []) = .ok ⟨none, none, none, none, none⟩
    ∧ (WaveMusic.toJson ⟨none, none, none, none, none⟩).hasKey "title" = true
    ∧ (Json.obj []).hasKey "title" = false :=
  ⟨rfl, rfl, rfl⟩

/-- C7 (amended): deserializing a schema-conforming response and then
re-serializing it preserves every field's value: absent and null both
parse to the no-value marker and re-serialize as an explicit null, so the
output parses back to exactly the same model, and every field key is
present in the output, an absent field appearing with a null value rather
than being omitted. -/
theorem c7_value_roundtrip (j : Json) (a : ApiResponse)
    (h : ApiResponse.fromJson j = .ok a) :
    ApiResponse.fromJson (ApiResponse.toJson a) = .ok a
    ∧ ∀ m : WaveMusic,
        ∀ k ∈ ["title", "uploaderName", "uploaderUrl", "duration", "id"],
          (WaveMusic.toJson m).hasKey k = true := by
  refine ⟨api_roundtrip j a h, ?_⟩
  intro m k hk
  fin_cases hk <;> rfl

/-- C7 witness: a response with one all-absent item round-trips. -/
theorem c7_value_roundtrip_witness :
    ApiResponse.fromJson (.obj [("items", .arr [.obj []])]) =
      .ok ⟨[⟨none, none, none, none, none⟩]⟩
    ∧ ApiResponse.fromJson
        (ApiResponse.toJson ⟨[⟨none, none, none, none, none⟩]⟩) =
      .ok ⟨[⟨none, none, none, none, none⟩]⟩ :=
  ⟨rfl, (c7_value_roundtrip (.obj [("items", .arr [.obj []])])
    ⟨[⟨none, none, none, none, none⟩]⟩ rfl).1⟩

theorem deItems_error_of_mem :
    ∀ es : List Json, ∀ jx ∈ es, ∀ se : SerdeError,
      WaveMusic.fromJson jx = .error se → ∃ se2, deItems es = .error se2 := by
  intro es
  induction es with
  | nil => intro jx h; cases h
  | cons j rest ih =>
    intro jx hmem se hfail
    cases hj : WaveMusic.fromJson j with
    | error e =>
      refine ⟨e, ?_⟩
      simp only [deItems, hj]
    | ok m =>
      rcases List.mem_cons.1 hmem with h1 | h1
      · subst h1
        rw [hfail] at hj
        cases hj
      · obtain ⟨se2, hrest⟩ := ih jx h1 se hfail
        refine ⟨se2, ?_⟩
        simp only [deItems, hj, hrest]

/-- C10: a duration value that is a negative integer or an integer beyond
the u32 range is a value error, a floating-point duration is a type error,
a failing duration field makes the whole item deserialization fail with
that error, a failing item makes the whole search fail with a decode error
rather than clamping or skipping, and every item of a successful search
has its duration absent or below 2^32. -/
theorem c10_duration_bounds (i : Int) (qf : Rat) (v : Json) (se : SerdeError)
    (es : List Json) (jx : Json) (q : String) (c : Nat) (net : Net)
    (items : List WaveMusic) :
    (i < 0 ∨ 4294967296 ≤ i →
      deOptU32 (.num (.int i)) = .error (.invalidValue "u32"))
    ∧ deOptU32 (.num (.float qf)) = .error (.invalidType "u32")
    ∧ (deOptU32 v = .error se →
        WaveMusic.fromJson (.obj [("duration", v)]) = .error se)
    ∧ (isSuccess c = true → jx ∈ es → WaveMusic.fromJson jx = .error se →
        ∃ se2, (WaveMusic.new q
          (fun _ => .ok ⟨c, some (.obj [("items", .arr es)])⟩)).1 =
          .error (.decode se2))
    ∧ ((WaveMusic.new q net).1 = .ok items →
        ∀ m ∈ items, ∀ d, m.duration = some d → d < 4294967296) := by
  refine ⟨?_, rfl, ?_, ?_, ?_⟩
  · intro h
    simp only [deOptU32]
    rw [if_neg (show ¬(0 ≤ i ∧ i < 4294967296) by omega)]
  · intro h
    show wmFields WMAcc.init [("duration", v)] = .error se
    simp [wmFields, wmStep, WMAcc.init, h]
  · intro hc hmem hfail
    obtain ⟨se2, hd⟩ := deItems_error_of_mem es jx hmem se hfail
    refine ⟨se2, ?_⟩
    apply new_result_decode q (fun _ => .ok ⟨c, some (.obj [("items", .arr es)])⟩)
      ⟨c, some (.obj [("items", .arr es)])⟩ _ rfl hc
    apply parse_response_decode ⟨c, some (.obj [("items", .arr es)])⟩
      (.obj [("items", .arr es)]) se2 rfl
    show arFields none [("items", .arr es)] = .error se2
    simp [arFields, hd, Except.bind]
  · intro hok m hm d hd
    cases hn : net (searchUrl q) with
    | error e => rw [new_result_transport q net e hn] at hok; cases hok
    | ok r =>
      cases hs : isSuccess r.status with
      | false => rw [new_result_status q net r hn hs] at hok; cases hok
      | true =>
        cases hb : r.body with
        | none =>
          rw [new_result_decode q net r (.decode .notJson) hn hs
            (by simp [WaveMusic.parse_response, hb])] at hok
          cases hok
        | some j =>
          cases hj : ApiResponse.fromJson j with
          | error se3 =>
            rw [new_result_decode q net r _ hn hs
              (parse_response_decode r j se3 hb hj)] at hok
            cases hok
          | ok a =>
            rw [new_result_ok q net r a hn hs (parse_response_ok r j a hb hj)] at hok
            injection hok with h2
            subst h2
            exact apiResponse_duration_range j a hj m hm d hd

/-- C10 witness: duration minus one in one item, duration as a float, and
a successful empty search. -/
theorem c10_duration_bounds_witness :
    ((-1 : Int) < 0 ∨ 4294967296 ≤ (-1 : Int))
    ∧ deOptU32 (.num (.int (-1))) = .error (.invalidValue "u32")
    ∧ deOptU32 (.num (.float (1 / 2))) = .error (.invalidType "u32")
    ∧ WaveMusic.fromJson (.obj [("duration", .num (.int (-1)))]) =
        .error (.invalidValue "u32")
    ∧ isSuccess 200 = true
    ∧ (.obj [("duration", .num (.int (-1)))] : Json) ∈
        [(.obj [("duration", .num (.int (-1)))] : Json)]
    ∧ (∃ se2, (WaveMusic.new "a"
        (fun _ => .ok ⟨200, some (.obj [("items",
          .arr [.obj [("duration", .num (.int (-1)))]])])⟩)).1 =
        .error (.decode se2))
    ∧ (WaveMusic.new "a" (fun _ => .ok ⟨200, some (.obj [("items", .arr [])])⟩)).1 =
        .ok []
    ∧ (∀ m ∈ ([] : List WaveMusic), ∀ d, m.duration = some d → d < 4294967296) := by
  have T := c10_duration_bounds (-1) (1 / 2) (.num (.int (-1))) (.invalidValue "u32")
    [.obj [("duration", .num (.int (-1)))]] (.obj [("duration", .num (.int (-1)))])
    "a" 200 (fun _ => .ok ⟨200, some (.obj [("items", .arr [])])⟩) []
  have h1 : (-1 : Int) < 0 ∨ 4294967296 ≤ (-1 : Int) := Or.inl (by norm_num)
  have hfj : WaveMusic.fromJson (.obj [("duration", .num (.int (-1)))]) =
      .error (.invalidValue "u32") := T.2.2.1 (T.1 h1)
  refine ⟨h1, T.1 h1, T.2.1, hfj, rfl, List.mem_singleton.2 rfl,
    T.2.2.2.1 rfl (List.mem_singleton.2 rfl) hfj, rfl, T.2.2.2.2 rfl⟩

end Wirewave
